import Mathlib

/-!
Verification of `src/text_sanitizer_auto.py` (Text_Sanitizer_Auto).

Python strings are modelled as `List Char` (`PyStr`); Python's
`str.split('\n')`, `'\n'.join`, and `str.strip()` are embedded as the
executable functions `pySplit`, `pyJoin`, `pyStrip`.  Each definition carries
a comment pointing to the source lines it embeds.
-/

/-- A Python string, modelled as its character sequence. -/
abbrev PyStr := List Char

/-- Python whitespace (ASCII part), as used by `str.strip()`. -/
def isPyWs (c : Char) : Bool :=
  c = ' ' || c = '\t' || c = '\n' || c = '\r' || c = '\x0b' || c = '\x0c'

/-- Python `s.strip()`: drop whitespace from both ends. -/
def pyStrip (s : PyStr) : PyStr :=
  ((s.dropWhile isPyWs).reverse.dropWhile isPyWs).reverse

/-- Python `text.split('\n')` (line 100 of the source): split on every
newline, keeping empty pieces; the empty string splits to `[""]`. -/
def pySplit : PyStr → List PyStr
  | [] => [[]]
  | c :: rest =>
    if c = '\n' then [] :: pySplit rest
    else
      match pySplit rest with
      | [] => [[c]]
      | h :: t => (c :: h) :: t

/-- Python `'\n'.join(pieces)` (lines 102 and 108 of the source). -/
def pyJoin : List PyStr → PyStr
  | [] => []
  | [x] => x
  | x :: xs => x ++ '\n' :: pyJoin xs

/-- The accumulation loop of `chunk_text` (source lines 97-108): walk the
lines, closing the current chunk when adding the next line would push the
accumulated size past `chunk_size` and the current chunk is non-empty.
Returns the chunks as lists of lines; `cur` is the current chunk, `sz` the
running `current_size`. -/
def chunkCore (chunk_size : Nat) : List PyStr → List PyStr → Nat → List (List PyStr)
  | [], cur, _ => if cur = [] then [] else [cur]
  | line :: rest, cur, sz =>
    if chunk_size < sz + line.length ∧ cur ≠ [] then
      cur :: chunkCore chunk_size rest [line] (line.length + 1)
    else
      chunkCore chunk_size rest (cur ++ [line]) (sz + line.length + 1)

/-- `chunk_text(text, chunk_size=200)` (source lines 94-113): split the text
on newlines, accumulate lines into chunks of roughly `chunk_size`, join each
chunk with newlines, and drop chunks whose stripped content is empty. -/
def chunk_text (text : PyStr) (chunk_size : Nat := 200) : List PyStr :=
  ((chunkCore chunk_size (pySplit text) [] 0).map pyJoin).filter
    (fun chunk => !(pyStrip chunk).isEmpty)

/-! ## The per-document state machine `process_text_file` (source lines 171-274)

The filesystem is modelled by the values the function writes: the per-chunk
files (each overwritten with the invoker result plus a trailing blank line,
source line 221), the combined cleaned file (lines 241-252), and the
JSON log (lines 270-271).  The external service is abstracted, per chunk, by
the outcomes its calls produce. -/

/-- Per-chunk record appended to `log_data["chunks_info"]` (source lines 223-229). -/
structure ChunkInfo where
  chunk_number : Nat
  original_length : Nat
  cleaned_length : Nat
  cleaned : Bool
deriving DecidableEq

/-- Terminal outcome of one `clean_text_chunk` call as seen by the chunk loop
(source line 216): either transformed text with flag true, or — after a
content-policy rejection — the original chunk with flag false. -/
inductive ChunkTerminal where
  | cleanedOk : PyStr → ChunkTerminal
  | filtered : ChunkTerminal
deriving DecidableEq

/-- Behaviour of the invoker on one chunk across the `while True` loop of
source lines 211-237: the messages of the exceptions raised by successive
`clean_text_chunk` invocations (each appended to `log_data["errors"]`,
line 236), followed by the terminal outcome on which the loop breaks. -/
structure ChunkPlan where
  fatals : List String
  terminal : ChunkTerminal

/-- Outcome of a Python call: a return value, or an uncaught exception. -/
inductive PyResult (α : Type) where
  | ok : α → PyResult α
  | exn : String → PyResult α
deriving DecidableEq

/-- The persisted per-document log `log_data` (source lines 183-189, 194,
255-258, 263-264).  `total_chunks` and `cleaned_chunks` are `Option` because
the Python dict only acquires those keys at lines 194 and 258. -/
structure LogData where
  file_name : String
  status : String
  errors : List String
  chunks_info : List ChunkInfo
  total_chunks : Option Nat
  cleaned_chunks : Option Nat

/-- Everything `process_text_file` leaves behind: its return value (or the
exception it raises), the persisted log, and the combined cleaned file
(none when it was never written). -/
structure ProcessOutput where
  result : PyResult (Nat × Nat)
  log : LogData
  cleanedFile : Option PyStr

/-- The sequential chunk loop, source lines 204-237: for chunk number `n`
the loop reads the persisted chunk, retries `clean_text_chunk` until it
returns (collecting one error string per raised exception, line 236),
overwrites the chunk file with the result plus `"\n\n"` (line 221), and
appends a `ChunkInfo` record.  Returns
(`cleaned_chunks`, `chunks_info`, `errors`, final chunk-file contents). -/
def runChunkLoop (plans : Nat → ChunkPlan) :
    List PyStr → Nat → Nat × List ChunkInfo × List String × List PyStr
  | [], _ => (0, [], [], [])
  | chunk :: rest, n =>
    let plan := plans n
    let errs := plan.fatals.map (fun m => "Chunk " ++ toString n ++ ": " ++ m)
    let step : PyStr × Bool :=
      match plan.terminal with
      | .cleanedOk t => (t, true)
      | .filtered => (chunk, false)
    let info : ChunkInfo :=
      { chunk_number := n, original_length := chunk.length,
        cleaned_length := step.1.length, cleaned := step.2 }
    let res := runChunkLoop plans rest (n + 1)
    ((if step.2 then 1 else 0) + res.1, info :: res.2.1, errs ++ res.2.2.1,
      (step.1 ++ ('\n' :: '\n' :: [])) :: res.2.2.2)

/-- `process_text_file(file_path, ...)` (source lines 171-274).  `readResult`
is the outcome of `read_file_with_fallback_encoding` (line 192): `.error`
when no encoding decodes the file (a raised `ValueError`).  On that path the
`except` block (lines 261-264) records status `"failed"` and the error, the
`finally` block persists the log — and then line 274,
`return cleaned_chunks, len(chunks)`, raises `UnboundLocalError`, because
both locals are only ever assigned inside the failed `try` block (lines 193,
205); that exception escapes the function. -/
def process_text_file (file_name : String) (readResult : Except String PyStr)
    (plans : Nat → ChunkPlan) : ProcessOutput :=
  match readResult with
  | .error e =>
    { result := .exn "UnboundLocalError: cleaned_chunks"
      log := { file_name := file_name, status := "failed", errors := [e],
               chunks_info := [], total_chunks := none, cleaned_chunks := none }
      cleanedFile := none }
  | .ok text =>
    let chunks := chunk_text text
    let res := runChunkLoop plans chunks 1
    { result := .ok (res.1, chunks.length)
      log := { file_name := file_name, status := "completed", errors := res.2.2.1,
               chunks_info := res.2.1, total_chunks := some chunks.length,
               cleaned_chunks := some res.1 }
      cleanedFile := some res.2.2.2.flatten }

/-! ## The orchestrator `main` (source lines 276-339) -/

/-- The `as_completed` loop of `main` (source lines 291-297), folded over the
per-document outcomes in completion order with accumulators
(`successful_files`, `total_cleaned_chunks`, `total_chunks`).
`future.result()` re-raises an exception stored in a future (line 292), which
then escapes `main`: modelled by `.exn`. -/
def mainLoop : List (PyResult (Nat × Nat)) → Nat → Nat → Nat →
    PyResult (Nat × Nat × Nat)
  | [], s, tc, t => .ok (s, tc, t)
  | .exn e :: _, _, _, _ => .exn e
  | .ok (cleaned, total) :: rest, s, tc, t =>
    mainLoop rest (if 0 < cleaned then s + 1 else s) (tc + cleaned) (t + total)

/-- The counts reported by the summary (source lines 302-319). -/
structure Summary where
  total_files : Nat
  successful_files : Nat
  failed_files : Nat
  total_chunks : Nat
  cleaned_chunks : Nat
  not_cleaned_chunks : Nat
deriving DecidableEq

/-- The summary `main` emits (source lines 299-339), `none` when the
aggregation loop raised and `main` died before reaching line 307. -/
def mainSummary (results : List (PyResult (Nat × Nat))) : Option Summary :=
  match mainLoop results 0 0 0 with
  | .exn _ => none
  | .ok (s, tc, t) =>
    some { total_files := results.length, successful_files := s,
           failed_files := results.length - s, total_chunks := t,
           cleaned_chunks := tc, not_cleaned_chunks := t - tc }

/-! ## `RateLimiter` (source lines 21-43)

The lock serializes the whole gate, including the `time.sleep` inside the
`with self.lock` block, so a run of the limiter is a sequence of gate
invocations; `now` is the wall-clock time at which an invocation acquires
the lock (line 31), and the returned time is when the gated call proceeds
(after the sleep, if any).  Times are integer time units. -/

/-- Line 32: drop timestamps that left the trailing window. -/
def rl_prune (period : Int) (calls : List Int) (now : Int) : List Int :=
  calls.filter (fun t => decide (now - t < period))

/-- Lines 31-38: prune; if the window is full, sleep
`period - (now - calls[0])`; then append `now` — the pre-sleep acquisition
time — and proceed.  Returns (proceed time, new timestamp list). -/
def rl_call (max_calls : Nat) (period : Int) (calls : List Int) (now : Int) :
    Int × List Int :=
  let pruned := rl_prune period calls now
  if max_calls ≤ pruned.length then
    (now + (period - (now - pruned.headD 0)), pruned ++ [now])
  else
    (now, pruned ++ [now])

/-- A run of the limiter over lock-acquisition times, returning the times at
which the gated calls proceed. -/
def rl_run (max_calls : Nat) (period : Int) : List Int → List Int → List Int
  | _, [] => []
  | calls, now :: rest =>
    let step := rl_call max_calls period calls now
    step.1 :: rl_run max_calls period step.2 rest

/-- A physically realizable schedule: acquisition times are non-decreasing,
and the lock is held through the sleep, so the next acquisition cannot
precede the current invocation's proceed time. -/
def rl_valid (max_calls : Nat) (period : Int) : List Int → List Int → Bool
  | _, [] => true
  | calls, now :: rest =>
    let step := rl_call max_calls period calls now
    (match rest with
     | [] => true
     | next :: _ => decide (now ≤ next) && decide (step.1 ≤ next))
      && rl_valid max_calls period step.2 rest

/-! ## `clean_text_chunk` and its retry policy (source lines 115-169) -/

/-- Outcome of one underlying service call inside `clean_text_chunk`
(source lines 143-169). -/
inductive ServiceOutcome where
  | success : PyStr → ServiceOutcome
  | contentFilterError : ServiceOutcome
  | apiError : String → ServiceOutcome
  | otherError : String → ServiceOutcome

/-- One attempt of the body of `clean_text_chunk` (source lines 143-169):
a successful response is stripped and returned with flag `true` (lines
155-157); an `APIError` whose message mentions content filtering returns the
original chunk with flag `false` (lines 159-162); every other error is
re-raised (lines 163-169). -/
def clean_text_chunk_once (chunk : PyStr) :
    ServiceOutcome → Except String (PyStr × Bool)
  | .success t => .ok (pyStrip t, true)
  | .contentFilterError => .ok (chunk, false)
  | .apiError m => .error m
  | .otherError m => .error m

/-- An outcome the retry policy retries on (a raised exception). -/
def isTransient : ServiceOutcome → Bool
  | .apiError _ => true
  | .otherError _ => true
  | .success _ => false
  | .contentFilterError => false

/-- Modelled from the spec: the backoff delay slept after failed attempt
`attempt`.  The policy comes from the `tenacity` decorator
`retry(stop=stop_after_attempt(3), wait=wait_exponential(multiplier=1, min=4, max=10))`
on source line 115; the tenacity library itself is not part of this
repository, so the delays follow the spec's words: base delay 4 time units,
doubling, capped at 10. -/
def backoffDelay (attempt : Nat) : Nat := Nat.min (4 * 2 ^ (attempt - 1)) 10

/-- Modelled from the spec: the retry loop around `clean_text_chunk_once`.
`attempt` is the current 1-based attempt number, `remaining` the number of
further attempts the stop policy still allows.  Returns the final result,
the attempt number on which the run ended, and the delays slept between
attempts. -/
def cleanRetry (chunk : PyStr) (service : Nat → ServiceOutcome) :
    Nat → Nat → Except String (PyStr × Bool) × Nat × List Nat
  | attempt, remaining =>
    match clean_text_chunk_once chunk (service attempt), remaining with
    | .ok r, _ => (.ok r, attempt, [])
    | .error e, 0 => (.error e, attempt, [])
    | .error _, r + 1 =>
      let rest := cleanRetry chunk service (attempt + 1) r
      (rest.1, rest.2.1, backoffDelay attempt :: rest.2.2)
termination_by _ remaining => remaining

/-- `clean_text_chunk` as decorated (source lines 115-117): the body under
the retry policy, 3 attempts total, with `service n` the outcome of the
`n`-th attempt's API call. -/
def clean_text_chunk (chunk : PyStr) (service : Nat → ServiceOutcome) :
    Except String (PyStr × Bool) × Nat × List Nat :=
  cleanRetry chunk service 1 2


theorem pySplit_ne_nil (s : PyStr) : pySplit s ≠ [] := by
  cases s with
  | nil => simp [pySplit]
  | cons c rest =>
    simp only [pySplit]
    split
    · simp
    · split <;> simp_all

theorem pySplit_no_nl (s : PyStr) : ∀ x ∈ pySplit s, '\n' ∉ x := by
  induction s with
  | nil =>
    intro x hx hmem
    simp [pySplit] at hx
    subst hx
    simp at hmem
  | cons c rest ih =>
    intro x hx
    by_cases hc : c = '\n'
    · rw [show pySplit (c :: rest) = [] :: pySplit rest by simp [pySplit, hc]] at hx
      rcases List.mem_cons.mp hx with h | h
      · subst h; simp
      · exact ih x h
    · rcases heq : pySplit rest with _ | ⟨h0, t0⟩
      · exact absurd heq (pySplit_ne_nil rest)
      · rw [show pySplit (c :: rest) = (c :: h0) :: t0 by
            simp [pySplit, hc, heq]] at hx
        rcases List.mem_cons.mp hx with h | h
        · subst h
          intro hmem
          rcases List.mem_cons.mp hmem with h1 | h1
          · exact hc h1.symm
          · exact ih h0 (by rw [heq]; exact List.mem_cons_self h0 t0) h1
        · exact ih x (by rw [heq]; exact List.mem_cons_of_mem h0 h)

theorem pySplit_append_nl (a b : PyStr) :
    pySplit (a ++ '\n' :: b) = pySplit a ++ pySplit b := by
  induction a with
  | nil => simp [pySplit]
  | cons c rest ih =>
    simp only [List.cons_append, pySplit, List.append_eq]
    split
    · simp [ih]
    · rw [ih]
      rcases heq : pySplit rest with _ | ⟨h0, t0⟩
      · exact absurd heq (pySplit_ne_nil rest)
      · simp

theorem pySplit_of_no_nl (s : PyStr) (h : '\n' ∉ s) : pySplit s = [s] := by
  induction s with
  | nil => rfl
  | cons c rest ih =>
    have hc : ¬ c = '\n' := fun hc => h (hc ▸ List.mem_cons_self c rest)
    simp only [pySplit, if_neg hc]
    rw [ih (fun hm => h (List.mem_cons_of_mem c hm))]

/-- Joining newline-free lines and re-splitting gives back the lines. -/
theorem pySplit_pyJoin_lines (ls : List PyStr) (hne : ls ≠ [])
    (hnl : ∀ x ∈ ls, '\n' ∉ x) : pySplit (pyJoin ls) = ls := by
  induction ls with
  | nil => exact absurd rfl hne
  | cons x xs ih =>
    cases xs with
    | nil => exact pySplit_of_no_nl x (hnl x (List.mem_cons_self x []))
    | cons y ys =>
      show pySplit (x ++ '\n' :: pyJoin (y :: ys)) = x :: y :: ys
      rw [pySplit_append_nl, pySplit_of_no_nl x (hnl x (by simp))]
      rw [ih (by simp) (fun z hz => hnl z (List.mem_cons_of_mem x hz))]
      rfl

/-- Splitting the newline-join of joined chunks recovers all the lines. -/
theorem pySplit_pyJoin_chunks (css : List (List PyStr)) (hne : css ≠ [])
    (hcne : ∀ cs ∈ css, cs ≠ [])
    (hnl : ∀ cs ∈ css, ∀ x ∈ cs, '\n' ∉ x) :
    pySplit (pyJoin (css.map pyJoin)) = css.flatten := by
  induction css with
  | nil => exact absurd rfl hne
  | cons cs rest ih =>
    cases rest with
    | nil =>
      show pySplit (pyJoin cs) = cs ++ []
      rw [pySplit_pyJoin_lines cs (hcne cs (by simp)) (hnl cs (by simp))]
      simp
    | cons cs2 rest2 =>
      show pySplit (pyJoin cs ++ '\n' :: pyJoin ((cs2 :: rest2).map pyJoin)) = _
      rw [pySplit_append_nl,
        pySplit_pyJoin_lines cs (hcne cs (by simp)) (hnl cs (by simp)),
        ih (by simp) (fun c hc => hcne c (List.mem_cons_of_mem cs hc))
          (fun c hc => hnl c (List.mem_cons_of_mem cs hc))]
      simp [List.flatten]

theorem chunkCore_flatten (chunk_size : Nat) :
    ∀ (rest : List PyStr) (cur : List PyStr) (sz : Nat),
      (chunkCore chunk_size rest cur sz).flatten = cur ++ rest := by
  intro rest
  induction rest with
  | nil =>
    intro cur sz
    simp only [chunkCore]
    split <;> simp_all
  | cons line r ih =>
    intro cur sz
    simp only [chunkCore]
    split
    · simp [ih]
    · simp [ih]

theorem chunkCore_ne_nil (chunk_size : Nat) :
    ∀ (rest : List PyStr) (cur : List PyStr) (sz : Nat),
      ∀ c ∈ chunkCore chunk_size rest cur sz, c ≠ [] := by
  intro rest
  induction rest with
  | nil =>
    intro cur sz c hc
    simp only [chunkCore] at hc
    split at hc
    · simp at hc
    · simp_all
  | cons line r ih =>
    intro cur sz c hc
    simp only [chunkCore] at hc
    split at hc
    · rcases List.mem_cons.mp hc with h | h
      · rename_i hcond; exact h ▸ hcond.2
      · exact ih [line] (line.length + 1) c h
    · exact ih (cur ++ [line]) (sz + line.length + 1) c hc

theorem flatten_sublist_of_sublist {α : Type} {l1 l2 : List (List α)}
    (h : List.Sublist l1 l2) : List.Sublist l1.flatten l2.flatten := by
  induction h with
  | slnil => exact List.Sublist.refl _
  | cons a _ ih =>
    simp only [List.flatten_cons]
    exact List.Sublist.trans ih (List.sublist_append_right a _)
  | cons₂ a _ ih =>
    simp only [List.flatten_cons]
    exact List.Sublist.append_left ih a

/-! ## Helper lemmas about the chunk loop and the aggregation loop -/

theorem runChunkLoop_all_filtered (plans : Nat → ChunkPlan)
    (h : ∀ n, (plans n).terminal = ChunkTerminal.filtered) :
    ∀ (chunks : List PyStr) (n : Nat),
      (runChunkLoop plans chunks n).1 = 0
      ∧ (runChunkLoop plans chunks n).2.2.2
          = chunks.map (fun c => c ++ ('\n' :: '\n' :: [])) := by
  intro chunks
  induction chunks with
  | nil => intro n; exact ⟨rfl, rfl⟩
  | cons c rest ih =>
    intro n
    simp only [runChunkLoop, h n, List.map_cons]
    refine ⟨?_, ?_⟩
    · simpa using (ih (n + 1)).1
    · simpa using (ih (n + 1)).2

theorem runChunkLoop_numbers (plans : Nat → ChunkPlan) :
    ∀ (chunks : List PyStr) (n : Nat),
      ((runChunkLoop plans chunks n).2.1).map (fun i => i.chunk_number)
        = List.range' n chunks.length := by
  intro chunks
  induction chunks with
  | nil => intro n; rfl
  | cons c rest ih =>
    intro n
    simp only [runChunkLoop, List.map_cons, List.length_cons]
    rw [List.range'_succ, ih (n + 1)]

theorem mainLoop_ok (ps : List (Nat × Nat)) :
    ∀ (s tc t : Nat),
      mainLoop (ps.map PyResult.ok) s tc t
        = .ok (s + ps.countP (fun p => decide (0 < p.1)),
               tc + (ps.map (fun p => p.1)).sum,
               t + (ps.map (fun p => p.2)).sum) := by
  induction ps with
  | nil => intro s tc t; simp [mainLoop]
  | cons p rest ih =>
    intro s tc t
    obtain ⟨c, tot⟩ := p
    simp only [List.map_cons, mainLoop]
    rw [ih]
    simp only [PyResult.ok.injEq, Prod.mk.injEq, List.countP_cons, List.sum_cons]
    by_cases hc : 0 < c <;> simp [hc] <;> omega

/-! ## The claims -/

/-- C1.  The claim says `process_text_file` always hands the
(cleaned count, total count) pair back to the orchestrator without raising,
including on an unreadable-encoding failure.  The code violates this: on a
read failure the function's trailing `return cleaned_chunks, len(chunks)`
(source line 274) references locals that were never assigned, so an
`UnboundLocalError` escapes, and the orchestrator's `future.result()`
(line 292) re-raises it.  This theorem evaluates the embedding at the
failing input: the persisted log exists, but the call raises instead of
returning a pair, and the aggregation loop observes the exception. -/
theorem c1_process_raises_on_unreadable_input :
    (process_text_file "B"
      (.error "Unable to read the file B.txt with any of the attempted encodings")
      (fun _ => ⟨[], ChunkTerminal.filtered⟩)).result
      = PyResult.exn "UnboundLocalError: cleaned_chunks"
    ∧ mainLoop [(process_text_file "B"
      (.error "Unable to read the file B.txt with any of the attempted encodings")
      (fun _ => ⟨[], ChunkTerminal.filtered⟩)).result] 0 0 0
      = PyResult.exn "UnboundLocalError: cleaned_chunks" :=
  ⟨rfl, rfl⟩

/-- C2.  The claim says a 3-document batch where document B fails to read
with an encoding error yields a summary with `successful_files = 2` and
`failed_files = 1`, and a persisted log for B with status `"failed"` and
non-empty errors.  The log half is true, but no summary is emitted at all:
B's `process_text_file` raises `UnboundLocalError` (source line 274), and
`main` dies at `future.result()` (line 292) before reaching the summary
(line 307).  This theorem evaluates the concrete 3-document scenario. -/
theorem c2_three_document_batch_with_unreadable_b :
    (process_text_file "B"
      (.error "Unable to read the file B.txt with any of the attempted encodings")
      (fun _ => ⟨[], ChunkTerminal.filtered⟩)).log.status = "failed"
    ∧ (process_text_file "B"
      (.error "Unable to read the file B.txt with any of the attempted encodings")
      (fun _ => ⟨[], ChunkTerminal.filtered⟩)).log.errors ≠ []
    ∧ mainSummary
        [(process_text_file "A" (.ok ('H' :: 'i' :: []))
            (fun _ => ⟨[], ChunkTerminal.cleanedOk ('H' :: 'i' :: [])⟩)).result,
         (process_text_file "B"
            (.error "Unable to read the file B.txt with any of the attempted encodings")
            (fun _ => ⟨[], ChunkTerminal.filtered⟩)).result,
         (process_text_file "C" (.ok ('Y' :: 'o' :: []))
            (fun _ => ⟨[], ChunkTerminal.cleanedOk ('Y' :: 'o' :: [])⟩)).result]
        = none :=
  ⟨rfl, by decide, rfl⟩

/-- C3.  Confirmed: when every service call returns a content-policy
rejection, every chunk keeps its original text, so the combined cleaned file
is exactly the original chunks rejoined the way the pipeline rejoins them —
each chunk followed by the `"\n\n"` separator that line 221 appends — and the
log records `cleaned_chunks = 0`. -/
theorem c3_all_rejected_output_is_original_rejoined (name : String)
    (text : PyStr) (plans : Nat → ChunkPlan)
    (h : ∀ n, (plans n).terminal = ChunkTerminal.filtered) :
    (process_text_file name (.ok text) plans).cleanedFile
      = some (((chunk_text text).map (fun c => c ++ ('\n' :: '\n' :: []))).flatten)
    ∧ (process_text_file name (.ok text) plans).log.cleaned_chunks = some 0 := by
  have key := runChunkLoop_all_filtered plans h (chunk_text text) 1
  constructor
  · show some ((runChunkLoop plans (chunk_text text) 1).2.2.2).flatten = _
    rw [key.2]
  · show some (runChunkLoop plans (chunk_text text) 1).1 = some 0
    rw [key.1]

/-- Witness for C3 at a concrete document. -/
theorem c3_witness :
    (process_text_file "doc" (.ok ('H' :: 'i' :: []))
        (fun _ => ⟨[], ChunkTerminal.filtered⟩)).cleanedFile
      = some (((chunk_text ('H' :: 'i' :: [])).map
          (fun c => c ++ ('\n' :: '\n' :: []))).flatten)
    ∧ (process_text_file "doc" (.ok ('H' :: 'i' :: []))
        (fun _ => ⟨[], ChunkTerminal.filtered⟩)).log.cleaned_chunks = some 0 :=
  c3_all_rejected_output_is_original_rejoined "doc" ('H' :: 'i' :: [])
    (fun _ => ⟨[], ChunkTerminal.filtered⟩) (fun _ => rfl)

/-- C4, counterexample.  The claim says joining `chunk_text(T, S)` with a
newline and splitting on newlines reproduces T's line sequence exactly.
False: `chunk_text` drops chunks whose stripped content is empty (source
line 111), so for T = "a\n\nb" and S = 1 the middle blank line lands in a
whitespace-only chunk and is lost: the round trip gives lines ["a", "b"]
instead of ["a", "", "b"]. -/
theorem c4_counterexample_blank_line_lost :
    pySplit (pyJoin (chunk_text ('a' :: '\n' :: '\n' :: 'b' :: []) 1))
      ≠ pySplit ('a' :: '\n' :: '\n' :: 'b' :: [])
    ∧ pySplit (pyJoin (chunk_text ('a' :: '\n' :: '\n' :: 'b' :: []) 1))
      = (('a' :: []) :: ('b' :: []) :: [])
    ∧ pySplit ('a' :: '\n' :: '\n' :: 'b' :: [])
      = (('a' :: []) :: [] :: ('b' :: []) :: []) := by
  decide

/-- C4, amended: joining the chunks of `chunk_text(T, S)` with a newline and
splitting on newlines yields a subsequence of T's line sequence — no line is
duplicated or reordered, but the lines of dropped whitespace-only chunks are
lost — provided at least one chunk is emitted (boundaries remain a
deterministic function of (T, S), `chunk_text` being a pure function). -/
theorem c4_rejoined_lines_are_sublist_of_original (t : PyStr) (s : Nat)
    (h : chunk_text t s ≠ []) :
    List.Sublist (pySplit (pyJoin (chunk_text t s))) (pySplit t) := by
  unfold chunk_text at h ⊢
  rw [List.filter_map] at h ⊢
  set L := chunkCore s (pySplit t) [] 0 with hL
  set L' := L.filter ((fun chunk => !(pyStrip chunk).isEmpty) ∘ pyJoin) with hL'
  have hne : L' ≠ [] := by
    intro h0
    rw [h0] at h
    exact h rfl
  have hmem : ∀ cs ∈ L', cs ∈ L := fun cs hcs => List.mem_of_mem_filter hcs
  have hcne : ∀ cs ∈ L', cs ≠ [] := fun cs hcs =>
    chunkCore_ne_nil s (pySplit t) [] 0 cs (hmem cs hcs)
  have hnl : ∀ cs ∈ L', ∀ x ∈ cs, '\n' ∉ x := by
    intro cs hcs x hx
    have hxf : x ∈ L.flatten := List.mem_flatten.mpr ⟨cs, hmem cs hcs, hx⟩
    rw [hL, chunkCore_flatten s (pySplit t) [] 0] at hxf
    exact pySplit_no_nl t x (by simpa using hxf)
  rw [pySplit_pyJoin_chunks L' hne hcne hnl]
  have hsub : List.Sublist L' L := List.filter_sublist L
  have hsub2 := flatten_sublist_of_sublist hsub
  rw [hL, chunkCore_flatten s (pySplit t) [] 0] at hsub2
  simpa using hsub2

/-- Witness for the amended C4 at a concrete text and size. -/
theorem c4_witness :
    chunk_text ('a' :: '\n' :: 'b' :: []) 1 ≠ []
    ∧ List.Sublist (pySplit (pyJoin (chunk_text ('a' :: '\n' :: 'b' :: []) 1)))
        (pySplit ('a' :: '\n' :: 'b' :: [])) :=
  ⟨by decide,
   c4_rejoined_lines_are_sublist_of_original ('a' :: '\n' :: 'b' :: []) 1
     (by decide)⟩

/-- C5.  Confirmed: every chunk `chunk_text` emits is non-empty after
stripping (the filter at source line 111); the chunk numbers recorded
downstream are `1, 2, ..., total` in order (lines 198 and 209); and an empty
document yields no chunks. -/
theorem c5_chunks_nonblank_and_indices_contiguous :
    (∀ (t : PyStr) (s : Nat), ∀ c ∈ chunk_text t s, pyStrip c ≠ [])
    ∧ (∀ (name : String) (t : PyStr) (plans : Nat → ChunkPlan),
        ((process_text_file name (.ok t) plans).log.chunks_info.map
            (fun i => i.chunk_number))
          = List.range' 1 (chunk_text t).length)
    ∧ (∀ s : Nat, chunk_text [] s = []) := by
  refine ⟨?_, ?_, ?_⟩
  · intro t s c hc h0
    unfold chunk_text at hc
    have hp := List.of_mem_filter hc
    rw [h0] at hp
    simp at hp
  · intro name t plans
    show ((runChunkLoop plans (chunk_text t) 1).2.1).map _ = _
    exact runChunkLoop_numbers plans (chunk_text t) 1
  · intro s
    simp [chunk_text, pySplit, chunkCore, pyJoin, pyStrip]

/-- Witness for C5 at concrete inputs. -/
theorem c5_witness :
    pyStrip ('a' :: []) ≠ [] ∧ chunk_text [] 3 = [] :=
  ⟨c5_chunks_nonblank_and_indices_contiguous.1 ('a' :: []) 5 ('a' :: [])
     (by decide),
   c5_chunks_nonblank_and_indices_contiguous.2.2 3⟩

/-- C6, counterexample.  The claim says the persisted log's total chunk
count equals the document's chunk count on every exit path, including a
failure before chunking.  False: `log_data["total_chunks"]` is only assigned
after chunking succeeds (source line 194), so when the read fails the
persisted log carries no total chunk count at all. -/
theorem c6_counterexample_failed_log_lacks_total_chunks :
    (process_text_file "B"
      (.error "Unable to read the file B.txt with any of the attempted encodings")
      (fun _ => ⟨[], ChunkTerminal.cleanedOk []⟩)).log.total_chunks = none :=
  rfl

/-- C6, amended: on every exit path on which the document was chunked
(the read succeeded), the persisted log's `total_chunks` equals the
document's chunk count; on a failure before chunking the log omits the
field entirely. -/
theorem c6_total_chunks_matches_when_chunked (name : String)
    (readResult : Except String PyStr) (plans : Nat → ChunkPlan) :
    (process_text_file name readResult plans).log.total_chunks
      = match readResult with
        | .ok text => some (chunk_text text).length
        | .error _ => none := by
  cases readResult <;> rfl

/-- C7.  The claim says the RateLimiter never lets more than `max_calls`
gated calls start within any trailing window of length `period`.  False of
the code: the gate sleeps while holding the lock and then records the
pre-sleep acquisition time (source line 37), never re-reading the clock, so
a later call prunes against stale timestamps and under-waits.  Concretely,
with `max_calls = 1`, `period = 4` and lock acquisitions at times 0, 1, 4 —
a schedule `rl_valid` certifies as realizable — the gated calls start at
times 0, 4, 5: two starts inside the trailing window (1, 5] of length 4. -/
theorem c7_rate_limit_window_exceeded :
    rl_valid 1 4 [] (0 :: 1 :: 4 :: []) = true
    ∧ rl_run 1 4 [] (0 :: 1 :: 4 :: []) = (0 :: 4 :: 5 :: [])
    ∧ 1 < ((rl_run 1 4 [] (0 :: 1 :: 4 :: [])).filter
        (fun p => decide (1 < p) && decide (p ≤ 5))).length := by
  decide

/-- C8.  Confirmed (retry policy modelled from the spec, see `backoffDelay`
and `cleanRetry`): when every underlying service call fails with a
transient (non-rejection) error, `clean_text_chunk` makes exactly 3
attempts, the error then propagates, and the backoff delays slept between
successive attempts are non-decreasing and at most 10 time units. -/
theorem c8_transient_failure_three_attempts_bounded_backoff (chunk : PyStr)
    (service : Nat → ServiceOutcome)
    (h : ∀ n, isTransient (service n) = true) :
    (∃ e, (clean_text_chunk chunk service).1 = .error e)
    ∧ (clean_text_chunk chunk service).2.1 = 3
    ∧ (clean_text_chunk chunk service).2.2 = (4 :: 8 :: [])
    ∧ List.Chain' (fun a b => a ≤ b) (clean_text_chunk chunk service).2.2
    ∧ ∀ d ∈ (clean_text_chunk chunk service).2.2, d ≤ 10 := by
  have herr : ∀ n, ∃ m, clean_text_chunk_once chunk (service n) = .error m := by
    intro n
    have hn := h n
    cases hs : service n with
    | success t => rw [hs] at hn; simp [isTransient] at hn
    | contentFilterError => rw [hs] at hn; simp [isTransient] at hn
    | apiError m => exact ⟨m, rfl⟩
    | otherError m => exact ⟨m, rfl⟩
  obtain ⟨m1, h1⟩ := herr 1
  obtain ⟨m2, h2⟩ := herr 2
  obtain ⟨m3, h3⟩ := herr 3
  have hrun : clean_text_chunk chunk service = (.error m3, 3, (4 :: 8 :: [])) := by
    unfold clean_text_chunk
    unfold cleanRetry
    rw [h1]
    unfold cleanRetry
    rw [h2]
    unfold cleanRetry
    rw [h3]
    rfl
  rw [hrun]
  refine ⟨⟨m3, rfl⟩, rfl, rfl, ?_, ?_⟩
  · simp
  · intro d hd
    rcases List.mem_cons.mp hd with h | h
    · omega
    · rcases List.mem_cons.mp h with h | h
      · omega
      · simp at h

/-- Witness for C8 with a service that always fails transiently. -/
theorem c8_witness :
    (∃ e, (clean_text_chunk ('x' :: [])
        (fun _ => ServiceOutcome.otherError "boom")).1 = .error e)
    ∧ (clean_text_chunk ('x' :: [])
        (fun _ => ServiceOutcome.otherError "boom")).2.1 = 3
    ∧ (clean_text_chunk ('x' :: [])
        (fun _ => ServiceOutcome.otherError "boom")).2.2 = (4 :: 8 :: [])
    ∧ List.Chain' (fun a b => a ≤ b) (clean_text_chunk ('x' :: [])
        (fun _ => ServiceOutcome.otherError "boom")).2.2
    ∧ ∀ d ∈ (clean_text_chunk ('x' :: [])
        (fun _ => ServiceOutcome.otherError "boom")).2.2, d ≤ 10 :=
  c8_transient_failure_three_attempts_bounded_backoff ('x' :: [])
    (fun _ => ServiceOutcome.otherError "boom") (fun _ => rfl)

/-- C9.  Confirmed: when the service call reports a content-policy
rejection, `clean_text_chunk` returns the original chunk paired with
`false` as a normal return value (not an error), on the first attempt,
with no retry and no backoff sleep. -/
theorem c9_rejection_returns_original_without_retry (chunk : PyStr)
    (service : Nat → ServiceOutcome)
    (h : service 1 = ServiceOutcome.contentFilterError) :
    clean_text_chunk chunk service = (.ok (chunk, false), 1, []) := by
  unfold clean_text_chunk
  unfold cleanRetry
  rw [h]
  rfl

/-- Witness for C9 with a service that rejects the chunk. -/
theorem c9_witness :
    clean_text_chunk ('x' :: []) (fun _ => ServiceOutcome.contentFilterError)
      = (.ok (('x' :: []), false), 1, []) :=
  c9_rejection_returns_original_without_retry ('x' :: [])
    (fun _ => ServiceOutcome.contentFilterError) rfl

/-- C10.  Confirmed: in `main`'s summary a document counts as successful
exactly when its returned cleaned-chunk count is positive (source line 295),
and `failed_files` is everything else (line 302); a document that completes
with every chunk rejected returns `(0, total)` and is therefore counted
among the failed files. -/
theorem c10_successful_files_counts_positive_cleaned :
    (∀ ps : List (Nat × Nat),
      mainSummary (ps.map PyResult.ok)
        = some { total_files := ps.length,
                 successful_files := ps.countP (fun p => decide (0 < p.1)),
                 failed_files :=
                   ps.length - ps.countP (fun p => decide (0 < p.1)),
                 total_chunks := (ps.map (fun p => p.2)).sum,
                 cleaned_chunks := (ps.map (fun p => p.1)).sum,
                 not_cleaned_chunks :=
                   (ps.map (fun p => p.2)).sum - (ps.map (fun p => p.1)).sum })
    ∧ (∀ (name : String) (text : PyStr) (plans : Nat → ChunkPlan),
        (∀ n, (plans n).terminal = ChunkTerminal.filtered) →
        (process_text_file name (.ok text) plans).result
          = PyResult.ok (0, (chunk_text text).length)) := by
  constructor
  · intro ps
    unfold mainSummary
    rw [mainLoop_ok ps 0 0 0]
    simp
  · intro name text plans h
    show PyResult.ok ((runChunkLoop plans (chunk_text text) 1).1, _) = _
    rw [(runChunkLoop_all_filtered plans h (chunk_text text) 1).1]

/-- Witness for C10: one all-rejected document among plain results. -/
theorem c10_witness :
    mainSummary (((2, 3) :: (0, 1) :: []).map PyResult.ok)
      = some { total_files := 2, successful_files := 1, failed_files := 1,
               total_chunks := 4, cleaned_chunks := 2,
               not_cleaned_chunks := 2 }
    ∧ (process_text_file "doc" (.ok ('H' :: 'i' :: []))
        (fun _ => ⟨[], ChunkTerminal.filtered⟩)).result
      = PyResult.ok (0, (chunk_text ('H' :: 'i' :: [])).length) :=
  ⟨by
    have := c10_successful_files_counts_positive_cleaned.1 ((2, 3) :: (0, 1) :: [])
    simpa using this,
   c10_successful_files_counts_positive_cleaned.2 "doc" ('H' :: 'i' :: [])
     (fun _ => ⟨[], ChunkTerminal.filtered⟩) (fun _ => rfl)⟩
